import Mathlib

/-!
Shallow embedding of `src/Files/warranty_dell.py`: the `Dell` warranty
fetcher (`run_warranty_check`) and response processor (`process_result`),
together with theorems about line classification, deduplication,
upload-record construction, order-number resolution and the seen-set
frame property.

Conventions of the embedding:
* JSON objects read with `d[key]` become structures whose fields keep the
  source's key names; a key whose absence matters to the behaviour is an
  `Option` field, and reading a missing key is Python's `KeyError`
  (`PyErr.keyError`).  The source's `except IndexError:` handler (line 66)
  cannot catch a `KeyError`, so in the embedding a missing section
  propagates as an error out of `process_result`.
* The upload sink `self.d42_rest.upload_data` is an abstract parameter
  `sink : Sink`; each call is recorded in order in `RunState.uploads`,
  and the sink is also given the chance to transform the seen-set, so
  that mutations performed by the caller's sink are representable.
* `random.randint(0, 9)` is an abstract stream `randint : Nat → Fin 10`
  consumed left to right; `RunState.rng` is the next unread position.
* The duplicate diagnostic `print` (lines 155-157) is recorded as the
  triple `(serial, line_contract_id, end_date)` in `RunState.dup_logs`.
-/

/-- Prefix test on character lists (`a` is a prefix of `b`). -/
def strStarts : List Char → List Char → Bool
  | [], _ => true
  | _ :: _, [] => false
  | a :: as, b :: bs => a == b && strStarts as bs

/-- Helper for `strIn`: does `sub` occur as a contiguous run inside the list? -/
def strInAux (sub : List Char) : List Char → Bool
  | [] => strStarts sub []
  | b :: bs => strStarts sub (b :: bs) || strInAux sub bs

/-- Python's substring operator `sub in s`. -/
def strIn (sub s : String) : Bool := strInAux sub.data s.data

/-- Python's `s.split('T')[0]`: everything before the first `'T'`
(the whole string when there is no `'T'`).  Used for the date-only
extraction `x.split('T')[0]` on lines 98, 142, 143. -/
def splitT0 (s : String) : String := String.mk (s.data.takeWhile (fun c => c != 'T'))

/-- The module-level helper `left(s, amount)` (line 178-179): Python slice
`s[:amount]`. -/
def left (s : String) (amount : Nat) : String := String.mk (s.data.take amount)

/-- One entitlement line (`sub_item` of the `warranties` loop).
`ServiceLevelDescription` is optional: its absence is what drives the
`try/except` on lines 134-140. -/
structure EntitlementLine where
  ItemNumber : String
  ServiceLevelGroup : Int
  ServiceLevelDescription : Option String
  StartDate : String
  EndDate : String
deriving DecidableEq

/-- The `AssetHeaderData` section of one asset. -/
structure AssetHeaderData where
  OrderNumber : String
  ServiceTag : String
  ShipDate : String
deriving DecidableEq

/-- The `ProductHeaderData` section of one asset. -/
structure ProductHeaderData where
  ProductId : String
deriving DecidableEq

/-- One element of the `AssetWarrantyResponse` array.  Each section is
optional: a missing section makes the dict accesses on lines 63-65 raise
`KeyError`. -/
structure AssetEntry where
  AssetEntitlementData : Option (List EntitlementLine)
  AssetHeaderData : Option AssetHeaderData
  ProductHeaderData : Option ProductHeaderData
deriving DecidableEq

/-- The top-level payload handed to `process_result`.  `InvalidFormatAssets`
holds the `BadAssets` message; it is only read inside the dead
`except IndexError:` handler, never on the success path. -/
structure WarrantyResponse where
  AssetWarrantyResponse : Option (List AssetEntry)
  InvalidFormatAssets : Option String
deriving DecidableEq

/-- The flat `data` dict at the moment `upload_data(data)` is called
(lines 101-146).  `order_no` is `Option` because `self.common` is Python
`None` unless the `common` strategy initialised it; `po_date` is only set
when the ship date is non-empty; `line_service_type` is only set when the
description was present. -/
structure UploadRecord where
  order_no : Option String
  po_date : Option String
  completed : String
  vendor : String
  line_device_serial_nos : String
  line_type : String
  line_item_type : String
  line_completed : String
  line_notes : String
  line_contract_id : String
  line_contract_type : String
  line_service_type : Option String
  line_start_date : String
  line_end_date : String
deriving DecidableEq

/-- The caller-supplied seen-set `purchases`: composite key paired with the
previously uploaded `(start_date, end_date)`. -/
abbrev SeenSet := List (String × String × String)

/-- The abstract upload sink `self.d42_rest.upload_data`.  It receives the
record and may transform the caller-owned seen-set (the processor itself
never writes the seen-set; any change goes through this function). -/
abbrev Sink := UploadRecord → SeenSet → SeenSet

/-- Python's `KeyError` (raised by reading a missing dict key). -/
inductive PyErr where
  | keyError
deriving DecidableEq

/-- The configuration state of a `Dell` instance that `process_result`
reads: `self.order_no` (the `ORDER_NO_TYPE` string), `self.common`, and
`self.debug`. -/
structure Dell where
  order_no : String
  common : Option String
  debug : Bool
deriving DecidableEq

/-- The static method `generate_random_order_no` (lines 162-167): nine
calls to `random.randint(0, 9)`, each stringified and appended.  The
stream `randint` is read at positions `k, k+1, ..., k+8`. -/
def generate_random_order_no (randint : Nat → Fin 10) (k : Nat) : String :=
  (List.range 9).foldl (fun order_no index => order_no ++ toString (randint (k + index)).val) ""

/-- The constructor `__init__` (lines 15-25) restricted to the state the
processor reads: when `ORDER_NO_TYPE == 'common'` it draws one shared
order number (consuming stream positions 0-8), otherwise `self.common`
stays `None`.  Returns the instance and the next unread stream position. -/
def Dell.init (order_no_type : String) (debug : Bool) (randint : Nat → Fin 10) :
    Dell × Nat :=
  if order_no_type == "common" then
    ({ order_no := order_no_type, common := some (generate_random_order_no randint 0),
       debug := debug }, 9)
  else
    ({ order_no := order_no_type, common := none, debug := debug }, 0)

/-- Order-number resolution (lines 76-81), performed once per asset:
`vendor` reads the asset header, `common` reads `self.common`, anything
else draws a fresh 9-digit number (consuming nine stream positions). -/
def resolve_order_no (d : Dell) (asset : AssetHeaderData) (randint : Nat → Fin 10)
    (k : Nat) : Option String × Nat :=
  if d.order_no == "vendor" then (some asset.OrderNumber, k)
  else if d.order_no == "common" then (d.common, k)
  else (some (generate_random_order_no randint k), k + 9)

/-- The classification chain of lines 120-128.  The conditions are the
source's, in the source's order; note the second branch is unreachable
because `service_level_group == 8` already matched the first. -/
def contract_type (service_level_group : Int) (product_id : String) : String :=
  if service_level_group = -1 ∨ service_level_group = 5 ∨ service_level_group = 8 then
    "Warranty"
  else if service_level_group = 8 ∧ strIn "compellent" product_id then
    "Service"
  else if service_level_group = 11 ∧ strIn "compellent" product_id then
    "Warranty"
  else
    "Service"

/-- The contents of the `data` dict as uploaded (lines 101-146): the dict
is cleared at the top of every line iteration, so at upload time it holds
exactly these keys. -/
def build_upload_record (order_no : Option String) (ship_date serial : String)
    (sub : EntitlementLine) (ctype start_date end_date : String) : UploadRecord :=
  { order_no := order_no
    po_date := if ship_date ≠ "" then some ship_date else none
    completed := "yes"
    vendor := "Dell Inc."
    line_device_serial_nos := serial
    line_type := "contract"
    line_item_type := "device"
    line_completed := "yes"
    line_notes := sub.ItemNumber
    line_contract_id := sub.ItemNumber
    line_contract_type := ctype
    line_service_type := sub.ServiceLevelDescription.map (fun s => left s 32)
    line_start_date := start_date
    line_end_date := end_date }

/-- The observable state threaded through `process_result`: the seen-set,
the upload calls made so far (in order), the duplicate diagnostics printed
so far, and the next unread random-stream position. -/
structure RunState where
  purchases : SeenSet
  uploads : List UploadRecord
  dup_logs : List (String × String × String)
  rng : Nat
deriving DecidableEq

/-- One iteration of the `for sub_item in warranties:` loop
(lines 96-160): classify, skip services, truncate the description,
date-split, build the composite key `serial + line_contract_id + end_date`,
and either log a duplicate, stay silent, or upload. -/
def process_line (sink : Sink) (order_no : Option String) (serial : String)
    (asset : AssetHeaderData) (product : ProductHeaderData)
    (st : RunState) (sub : EntitlementLine) : RunState :=
  let ship_date := splitT0 asset.ShipDate
  let product_id := product.ProductId
  let ctype := contract_type sub.ServiceLevelGroup product_id
  if ctype = "Service" then
    st
  else
    let start_date := splitT0 sub.StartDate
    let end_date := splitT0 sub.EndDate
    let hasher := serial ++ sub.ItemNumber ++ end_date
    match st.purchases.lookup hasher with
    | some (d_start, d_end) =>
      if d_start = start_date ∧ d_end = end_date then
        { st with dup_logs := st.dup_logs ++ [(serial, sub.ItemNumber, end_date)] }
      else
        st
    | none =>
      let data := build_upload_record order_no ship_date serial sub ctype start_date end_date
      { st with uploads := st.uploads ++ [data], purchases := sink data st.purchases }

/-- One iteration of the outer `for item in result['AssetWarrantyResponse']:`
loop (lines 61-160).  A missing section raises `KeyError`, which the
source's `except IndexError:` does not catch, so it propagates. -/
def process_item (d : Dell) (randint : Nat → Fin 10) (sink : Sink)
    (st : RunState) (item : AssetEntry) : Except PyErr RunState :=
  match item.AssetEntitlementData, item.AssetHeaderData, item.ProductHeaderData with
  | some warranties, some asset, some product =>
    let ok := resolve_order_no d asset randint st.rng
    let serial := asset.ServiceTag
    Except.ok (warranties.foldl (process_line sink ok.1 serial asset product)
      { st with rng := ok.2 })
  | _, _, _ => Except.error PyErr.keyError

/-- The outer loop over all asset entries; an uncaught `KeyError` aborts
the remaining entries. -/
def process_items (d : Dell) (randint : Nat → Fin 10) (sink : Sink) :
    RunState → List AssetEntry → RunState × Option PyErr
  | st, [] => (st, none)
  | st, item :: rest =>
    match process_item d randint sink st item with
    | Except.ok st1 => process_items d randint sink st1 rest
    | Except.error e => (st, some e)

/-- The initial `RunState` for a call of `process_result`. -/
def init_state (purchases : SeenSet) (k : Nat) : RunState :=
  { purchases := purchases, uploads := [], dup_logs := [], rng := k }

/-- The method `process_result(result, purchases)` (lines 57-160).  When the
payload lacks the `'AssetWarrantyResponse'` key the body is skipped
entirely and the method returns normally.  The second component records an
uncaught exception, `none` meaning a normal return. -/
def process_result (d : Dell) (randint : Nat → Fin 10) (sink : Sink)
    (result : WarrantyResponse) (purchases : SeenSet) (k : Nat) :
    RunState × Option PyErr :=
  match result.AssetWarrantyResponse with
  | none => (init_state purchases k, none)
  | some items => process_items d randint sink (init_state purchases k) items

/-- Total number of entitlement lines carried by a payload. -/
def count_lines (result : WarrantyResponse) : Nat :=
  match result.AssetWarrantyResponse with
  | none => 0
  | some items => (items.map (fun item => (item.AssetEntitlementData.getD []).length)).sum

/-- Outcome of one HTTP GET in `run_warranty_check`: a response with a
status code and (for the non-401 path) a parsed JSON body, or a
`requests.RequestException`. -/
inductive HttpResult where
  | response (status : Nat) (body : WarrantyResponse)
  | requestException
deriving DecidableEq

/-- The method `run_warranty_check(inline_serials, retry=True)`
(lines 31-55), with the network abstracted as a stream of outcomes indexed
by request number.  Note the faithful detail on the 401 path with
`retry = true`: the source calls itself recursively (line 47) but never
returns the recursive result, so the caller receives `None` regardless of
what the retry produced. -/
def run_warranty_check (net : Nat → HttpResult) (attempt : Nat) (retry : Bool) :
    Option WarrantyResponse :=
  match net attempt with
  | HttpResult.requestException => none
  | HttpResult.response status body =>
    if status = 401 then
      match retry with
      | true =>
        let _ := run_warranty_check net (attempt + 1) false
        none
      | false => none
    else
      some body
termination_by (if retry then 1 else 0)
decreasing_by simp

/-- Example asset header used by concrete evaluations. -/
def exAsset : AssetHeaderData :=
  { OrderNumber := "701234567", ServiceTag := "ABC123", ShipDate := "2020-01-02T00:00:00" }

/-- Example product header used by concrete evaluations. -/
def exProduct : ProductHeaderData := { ProductId := "poweredge-r740" }

/-- Example warranty line (service-level group 5, classified Warranty). -/
def exLineW : EntitlementLine :=
  { ItemNumber := "939-1234", ServiceLevelGroup := 5,
    ServiceLevelDescription := some "Next Business Day Onsite Service After Problem Diagnosis",
    StartDate := "2020-01-02T00:00:00", EndDate := "2023-01-02T23:59:59" }

/-- Example service line (group 3, no compellent match, classified Service). -/
def exLineS : EntitlementLine :=
  { ItemNumber := "939-9999", ServiceLevelGroup := 3,
    ServiceLevelDescription := some "ProSupport",
    StartDate := "2020-01-02T00:00:00", EndDate := "2021-01-02T23:59:59" }

/-- Example well-formed asset entry with one Warranty and one Service line. -/
def exItem : AssetEntry :=
  { AssetEntitlementData := some [exLineW, exLineS],
    AssetHeaderData := some exAsset, ProductHeaderData := some exProduct }

/-- Example payload holding only the well-formed entry. -/
def exResult : WarrantyResponse :=
  { AssetWarrantyResponse := some [exItem], InvalidFormatAssets := none }

/-- Example malformed asset entry: every section missing. -/
def exBadItem : AssetEntry :=
  { AssetEntitlementData := none, AssetHeaderData := none, ProductHeaderData := none }

/-- Example payload with a malformed entry followed by a well-formed one. -/
def exBadResult : WarrantyResponse :=
  { AssetWarrantyResponse := some [exBadItem, exItem],
    InvalidFormatAssets := some "['BadTag']" }

/-- Example deterministic stand-in for the random stream. -/
def exRandint : Nat → Fin 10 := fun i => ⟨i % 10, Nat.mod_lt i (by decide)⟩

/-- Example sink that performs no seen-set mutation. -/
def exSink : Sink := fun _ p => p

/-- Example instance configured with the `vendor` order-number strategy. -/
def exDell : Dell := { order_no := "vendor", common := none, debug := false }

/-- Example run state whose seen-set already holds the composite key of
`exLineW` with matching dates. -/
def exStDup : RunState :=
  { purchases := [("ABC123939-12342023-01-02", "2020-01-02", "2023-01-02")],
    uploads := [], dup_logs := [], rng := 0 }

/-- Example network trace: first request is rate-limited (401), the second
succeeds with status 200 and a parsed body. -/
def exNet : Nat → HttpResult := fun n =>
  if n = 0 then HttpResult.response 401 exResult else HttpResult.response 200 exResult

/-- Example upload record: what processing `exLineW` of `exItem` uploads
under the `vendor` strategy. -/
def exRecW : UploadRecord :=
  { order_no := some "701234567", po_date := some "2020-01-02", completed := "yes",
    vendor := "Dell Inc.", line_device_serial_nos := "ABC123", line_type := "contract",
    line_item_type := "device", line_completed := "yes", line_notes := "939-1234",
    line_contract_id := "939-1234", line_contract_type := "Warranty",
    line_service_type := some "Next Business Day Onsite Service",
    line_start_date := "2020-01-02", line_end_date := "2023-01-02" }

/-- Example state after processing `exItem` from the empty initial state. -/
def exSt1 : RunState :=
  { purchases := [], uploads := [exRecW], dup_logs := [], rng := 0 }

/-- Example error payload without the `AssetWarrantyResponse` key. -/
def exErrResult : WarrantyResponse :=
  { AssetWarrantyResponse := none, InvalidFormatAssets := some "['ABC']" }

/-- Characterisation of the classification chain: the second branch of the
source (group 8 plus compellent) is unreachable, so "Warranty" is produced
exactly on groups -1, 5, 8, or group 11 with a compellent product id. -/
theorem contract_type_warranty_iff (g : Int) (pid : String) :
    contract_type g pid = "Warranty" ↔
      (g = -1 ∨ g = 5 ∨ g = 8 ∨ (g = 11 ∧ strIn "compellent" pid = true)) := by
  unfold contract_type
  split_ifs with h1 h2 h3
  · exact iff_of_true rfl (by tauto)
  · exact absurd (Or.inr (Or.inr h2.1)) h1
  · exact iff_of_true rfl (Or.inr (Or.inr (Or.inr ⟨h3.1, h3.2⟩)))
  · refine iff_of_false (by decide) ?_
    rintro (h | h | h | ⟨h, hc⟩)
    · exact h1 (Or.inl h)
    · exact h1 (Or.inr (Or.inl h))
    · exact h1 (Or.inr (Or.inr h))
    · exact h3 ⟨h, hc⟩

/-- The classification chain only ever produces the two literals. -/
theorem contract_type_total (g : Int) (pid : String) :
    contract_type g pid = "Warranty" ∨ contract_type g pid = "Service" := by
  unfold contract_type
  split_ifs <;> simp

/-- Appending strings appends their character lists. -/
theorem string_data_append (a b : String) : (a ++ b).data = a.data ++ b.data := rfl

/-- Length of a string concatenation. -/
theorem string_length_append (a b : String) : (a ++ b).length = a.length + b.length := by
  show (a ++ b).data.length = a.data.length + b.data.length
  rw [string_data_append]
  exact List.length_append _ _

/-- Each value of `random.randint(0, 9)` stringifies to one decimal digit. -/
theorem toString_fin10 :
    ∀ v : Fin 10, (toString v.val).length = 1 ∧ (toString v.val).data.all Char.isDigit = true := by
  decide

/-- Invariant of the digit-appending loop in `generate_random_order_no`. -/
theorem gen_foldl_spec (randint : Nat → Fin 10) (k : Nat) (l : List Nat) (acc : String)
    (hacc : acc.data.all Char.isDigit = true) :
    (l.foldl (fun order_no index => order_no ++ toString (randint (k + index)).val) acc).length =
      acc.length + l.length ∧
    (l.foldl (fun order_no index => order_no ++ toString (randint (k + index)).val)
      acc).data.all Char.isDigit = true := by
  induction l generalizing acc with
  | nil => exact ⟨by simp, hacc⟩
  | cons i rest ih =>
    have h1 := toString_fin10 (randint (k + i))
    have hacc2 : (acc ++ toString (randint (k + i)).val).data.all Char.isDigit = true := by
      rw [string_data_append, List.all_append, hacc, h1.2]
      rfl
    obtain ⟨ihl, iha⟩ := ih (acc ++ toString (randint (k + i)).val) hacc2
    refine ⟨?_, by rw [List.foldl_cons]; exact iha⟩
    rw [List.foldl_cons, ihl, string_length_append, h1.1, List.length_cons]
    omega

/-- A generated order number is exactly nine decimal digits. -/
theorem generate_random_order_no_spec (randint : Nat → Fin 10) (k : Nat) :
    (generate_random_order_no randint k).length = 9 ∧
    (generate_random_order_no randint k).data.all Char.isDigit = true := by
  have h := gen_foldl_spec randint k (List.range 9) "" (by decide)
  unfold generate_random_order_no
  exact ⟨by rw [h.1]; rfl, h.2⟩

/-- Folding a function that ignores its second argument changes nothing. -/
theorem foldl_keep {α β : Type} (l : List α) (b : β) : l.foldl (fun p _ => p) b = b := by
  induction l generalizing b with
  | nil => rfl
  | cons a l ih => rw [List.foldl_cons]; exact ih b

/-- Effect of one line iteration: it appends at most one upload record,
touches the seen-set only through the sink, leaves the random stream
position alone, and any appended record carries the resolved order number
and the "Warranty" classification. -/
theorem process_line_effect (sink : Sink) (o : Option String) (serial : String)
    (asset : AssetHeaderData) (product : ProductHeaderData) (st : RunState)
    (sub : EntitlementLine) :
    ∃ l : List UploadRecord, l.length ≤ 1 ∧
      (process_line sink o serial asset product st sub).uploads = st.uploads ++ l ∧
      (process_line sink o serial asset product st sub).purchases =
        l.foldl (fun p data => sink data p) st.purchases ∧
      (process_line sink o serial asset product st sub).rng = st.rng ∧
      ∀ data ∈ l, data.order_no = o ∧ data.line_contract_type = "Warranty" := by
  simp only [process_line]
  split_ifs with h
  · exact ⟨[], by simp, by simp, by simp, by simp, by simp⟩
  · split
    · split_ifs with hd
      · exact ⟨[], by simp, by simp, by simp, by simp, by simp⟩
      · exact ⟨[], by simp, by simp, by simp, by simp, by simp⟩
    · refine ⟨[build_upload_record o (splitT0 asset.ShipDate) serial sub
        (contract_type sub.ServiceLevelGroup product.ProductId)
        (splitT0 sub.StartDate) (splitT0 sub.EndDate)], by simp, by simp, by simp, by simp, ?_⟩
      intro data hdm
      rw [List.mem_singleton] at hdm
      subst hdm
      exact ⟨rfl, (contract_type_total sub.ServiceLevelGroup product.ProductId).resolve_right h⟩

/-- Effect of the whole `for sub_item in warranties:` loop, by induction
from `process_line_effect`. -/
theorem process_lines_effect (sink : Sink) (o : Option String) (serial : String)
    (asset : AssetHeaderData) (product : ProductHeaderData)
    (ws : List EntitlementLine) (st : RunState) :
    ∃ l : List UploadRecord, l.length ≤ ws.length ∧
      (ws.foldl (process_line sink o serial asset product) st).uploads = st.uploads ++ l ∧
      (ws.foldl (process_line sink o serial asset product) st).purchases =
        l.foldl (fun p data => sink data p) st.purchases ∧
      (ws.foldl (process_line sink o serial asset product) st).rng = st.rng ∧
      ∀ data ∈ l, data.order_no = o ∧ data.line_contract_type = "Warranty" := by
  induction ws generalizing st with
  | nil => exact ⟨[], by simp, by simp, by simp, by simp, by simp⟩
  | cons w ws ih =>
    obtain ⟨l1, hlen1, hu1, hp1, hr1, hw1⟩ := process_line_effect sink o serial asset product st w
    obtain ⟨l2, hlen2, hu2, hp2, hr2, hw2⟩ := ih (process_line sink o serial asset product st w)
    refine ⟨l1 ++ l2, ?_, ?_, ?_, ?_, ?_⟩
    · rw [List.length_append, List.length_cons]; omega
    · rw [List.foldl_cons, hu2, hu1, List.append_assoc]
    · rw [List.foldl_cons, hp2, hp1, List.foldl_append]
    · rw [List.foldl_cons, hr2, hr1]
    · intro data hd
      rcases List.mem_append.mp hd with hh | hh
      · exact hw1 data hh
      · exact hw2 data hh

/-- Reduction of one outer-loop iteration when all three sections are
present. -/
theorem process_item_ok (d : Dell) (randint : Nat → Fin 10) (sink : Sink)
    (st : RunState) (item : AssetEntry) (warranties : List EntitlementLine)
    (asset : AssetHeaderData) (product : ProductHeaderData)
    (hw : item.AssetEntitlementData = some warranties)
    (ha : item.AssetHeaderData = some asset)
    (hp : item.ProductHeaderData = some product) :
    process_item d randint sink st item =
      Except.ok (warranties.foldl
        (process_line sink (resolve_order_no d asset randint st.rng).1 asset.ServiceTag
          asset product)
        { st with rng := (resolve_order_no d asset randint st.rng).2 }) := by
  simp only [process_item, hw, ha, hp]

/-- Effect of one outer-loop iteration that returns normally. -/
theorem process_item_effect (d : Dell) (randint : Nat → Fin 10) (sink : Sink)
    (st : RunState) (item : AssetEntry) (st1 : RunState)
    (h : process_item d randint sink st item = Except.ok st1) :
    ∃ warranties asset product,
      item.AssetEntitlementData = some warranties ∧
      item.AssetHeaderData = some asset ∧
      item.ProductHeaderData = some product ∧
      ∃ l : List UploadRecord, l.length ≤ warranties.length ∧
        st1.uploads = st.uploads ++ l ∧
        st1.purchases = l.foldl (fun p data => sink data p) st.purchases ∧
        ∀ data ∈ l,
          data.order_no = (resolve_order_no d asset randint st.rng).1 ∧
          data.line_contract_type = "Warranty" := by
  cases hw : item.AssetEntitlementData with
  | none => rw [process_item, hw] at h; cases h
  | some warranties =>
    cases ha : item.AssetHeaderData with
    | none => rw [process_item, hw, ha] at h; cases h
    | some asset =>
      cases hp : item.ProductHeaderData with
      | none => rw [process_item, hw, ha, hp] at h; cases h
      | some product =>
        rw [process_item_ok d randint sink st item warranties asset product hw ha hp] at h
        injection h with h
        obtain ⟨l, h1, h2, h3, h4, h5⟩ := process_lines_effect sink
          (resolve_order_no d asset randint st.rng).1 asset.ServiceTag asset product
          warranties { st with rng := (resolve_order_no d asset randint st.rng).2 }
        refine ⟨warranties, asset, product, rfl, rfl, rfl, l, h1, ?_, ?_, h5⟩
        · rw [← h, h2]
        · rw [← h, h3]

/-- Resolution under the `vendor` strategy reads the asset header. -/
theorem resolve_order_no_vendor (d : Dell) (asset : AssetHeaderData)
    (randint : Nat → Fin 10) (k : Nat) (h : d.order_no = "vendor") :
    resolve_order_no d asset randint k = (some asset.OrderNumber, k) := by
  simp [resolve_order_no, h]

/-- Resolution under the `common` strategy reads the shared value drawn at
construction time. -/
theorem resolve_order_no_common (d : Dell) (asset : AssetHeaderData)
    (randint : Nat → Fin 10) (k : Nat) (h : d.order_no = "common") :
    resolve_order_no d asset randint k = (d.common, k) := by
  simp [resolve_order_no, h]

/-- Resolution under any other strategy draws a fresh number at the current
stream position and advances it by nine. -/
theorem resolve_order_no_other (d : Dell) (asset : AssetHeaderData)
    (randint : Nat → Fin 10) (k : Nat) (hv : d.order_no ≠ "vendor")
    (hc : d.order_no ≠ "common") :
    resolve_order_no d asset randint k =
      (some (generate_random_order_no randint k), k + 9) := by
  simp [resolve_order_no, hv, hc]

/-- Effect of the whole outer loop, also in the presence of an aborting
exception: whatever happens, the upload calls made so far all carry the
"Warranty" classification, their number is bounded by the number of lines,
and the seen-set evolves only through the sink. -/
theorem process_items_effect (d : Dell) (randint : Nat → Fin 10) (sink : Sink)
    (items : List AssetEntry) (st : RunState) :
    ∃ l : List UploadRecord,
      l.length ≤ (items.map (fun item => (item.AssetEntitlementData.getD []).length)).sum ∧
      (process_items d randint sink st items).1.uploads = st.uploads ++ l ∧
      (process_items d randint sink st items).1.purchases =
        l.foldl (fun p data => sink data p) st.purchases ∧
      ∀ data ∈ l, data.line_contract_type = "Warranty" ∧
        (d.order_no = "common" → data.order_no = d.common) := by
  induction items generalizing st with
  | nil => exact ⟨[], by simp, by simp [process_items], by simp [process_items], by simp⟩
  | cons item rest ih =>
    cases hpi : process_item d randint sink st item with
    | error e =>
      exact ⟨[], by simp, by simp [process_items, hpi], by simp [process_items, hpi], by simp⟩
    | ok st1 =>
      obtain ⟨warranties, asset, product, hw, ha, hp, l1, hlen1, hu1, hpu1, hrec1⟩ :=
        process_item_effect d randint sink st item st1 hpi
      obtain ⟨l2, hlen2, hu2, hpu2, hrec2⟩ := ih st1
      refine ⟨l1 ++ l2, ?_, ?_, ?_, ?_⟩
      · rw [List.length_append, List.map_cons, List.sum_cons, hw]
        simp only [Option.getD_some]
        omega
      · simp only [process_items, hpi]
        rw [hu2, hu1, List.append_assoc]
      · simp only [process_items, hpi]
        rw [hpu2, hpu1, List.foldl_append]
      · intro data hd
        rcases List.mem_append.mp hd with hh | hh
        · refine ⟨(hrec1 data hh).2, fun hc => ?_⟩
          rw [(hrec1 data hh).1, resolve_order_no_common d asset randint st.rng hc]
        · exact hrec2 data hh

/-- Effect of a whole `process_result` call. -/
theorem process_result_effect (d : Dell) (randint : Nat → Fin 10) (sink : Sink)
    (result : WarrantyResponse) (purchases : SeenSet) (k : Nat) :
    ∃ l : List UploadRecord,
      l.length ≤ count_lines result ∧
      (process_result d randint sink result purchases k).1.uploads = l ∧
      (process_result d randint sink result purchases k).1.purchases =
        l.foldl (fun p data => sink data p) purchases ∧
      ∀ data ∈ l, data.line_contract_type = "Warranty" ∧
        (d.order_no = "common" → data.order_no = d.common) := by
  cases hr : result.AssetWarrantyResponse with
  | none =>
    exact ⟨[], by simp [count_lines, hr], by simp [process_result, hr, init_state],
      by simp [process_result, hr, init_state], by simp⟩
  | some items =>
    obtain ⟨l, h1, h2, h3, h4⟩ := process_items_effect d randint sink items (init_state purchases k)
    refine ⟨l, ?_, ?_, ?_, h4⟩
    · simpa [count_lines, hr] using h1
    · simp only [process_result, hr]
      simpa [init_state] using h2
    · simp only [process_result, hr]
      simpa [init_state] using h3

/-- C1: for every entitlement line, the computed contract type is
"Warranty" exactly when the service-level group is -1, 5 or 8, or when the
group is 11 and the product id contains the substring "compellent"; every
other line is classified "Service". -/
theorem C1_contract_type_classification (g : Int) (pid : String) :
    (contract_type g pid = "Warranty" ↔
      (g = -1 ∨ g = 5 ∨ g = 8 ∨ (g = 11 ∧ strIn "compellent" pid = true))) ∧
    (contract_type g pid = "Warranty" ∨ contract_type g pid = "Service") :=
  ⟨contract_type_warranty_iff g pid, contract_type_total g pid⟩

/-- Witness instantiating C1 at concrete groups and product ids. -/
theorem C1_contract_type_classification_witness :
    contract_type 5 "poweredge-r740" = "Warranty" ∧
    contract_type 11 "sc-compellent" = "Warranty" ∧
    contract_type 3 "poweredge-r740" = "Service" :=
  ⟨(C1_contract_type_classification 5 "poweredge-r740").1.mpr (by decide),
   (C1_contract_type_classification 11 "sc-compellent").1.mpr (by decide),
   (C1_contract_type_classification 3 "poweredge-r740").2.resolve_left
     (fun h => absurd ((C1_contract_type_classification 3 "poweredge-r740").1.mp h)
       (by decide))⟩

/-- C2: per entitlement line the processor makes at most one upload call
and a "Service"-classified line makes none, while over a whole run every
upload call carries the "Warranty" classification and the number of upload
calls is bounded by the number of entitlement lines. -/
theorem C2_upload_invariant (d : Dell) (randint : Nat → Fin 10) (sink : Sink)
    (result : WarrantyResponse) (purchases : SeenSet) (k : Nat) (o : Option String)
    (serial : String) (asset : AssetHeaderData) (product : ProductHeaderData)
    (st : RunState) (sub : EntitlementLine) :
    (process_line sink o serial asset product st sub).uploads.length ≤
      st.uploads.length + 1 ∧
    (contract_type sub.ServiceLevelGroup product.ProductId = "Service" →
      (process_line sink o serial asset product st sub).uploads = st.uploads) ∧
    (∀ data ∈ (process_result d randint sink result purchases k).1.uploads,
      data.line_contract_type = "Warranty") ∧
    (process_result d randint sink result purchases k).1.uploads.length ≤
      count_lines result := by
  obtain ⟨l, hl1, hl2, _, _, _⟩ := process_line_effect sink o serial asset product st sub
  obtain ⟨L, hL1, hL2, _, hL4⟩ := process_result_effect d randint sink result purchases k
  refine ⟨?_, ?_, ?_, ?_⟩
  · rw [hl2, List.length_append]; omega
  · intro h
    simp only [process_line]
    rw [if_pos h]
  · intro data hd
    rw [hL2] at hd
    exact (hL4 data hd).1
  · rw [hL2]; exact hL1

/-- Witness instantiating C2: the concrete Service line is not uploaded. -/
theorem C2_upload_invariant_witness :
    contract_type exLineS.ServiceLevelGroup exProduct.ProductId = "Service" ∧
    (process_line exSink (some "701234567") "ABC123" exAsset exProduct (init_state [] 0)
      exLineS).uploads = (init_state [] 0).uploads :=
  ⟨by decide,
   (C2_upload_invariant exDell exRandint exSink exResult [] 0 (some "701234567") "ABC123"
     exAsset exProduct (init_state [] 0) exLineS).2.1 (by decide)⟩

/-- C8: the processor never writes the seen-set itself: after a run the
seen-set equals the caller-supplied one transformed only by the sink, once
per emitted record, and with a sink that performs no mutation it is
exactly the seen-set handed in. -/
theorem C8_seen_set_frame (d : Dell) (randint : Nat → Fin 10) (sink : Sink)
    (result : WarrantyResponse) (purchases : SeenSet) (k : Nat) :
    (process_result d randint sink result purchases k).1.purchases =
      ((process_result d randint sink result purchases k).1.uploads).foldl
        (fun p data => sink data p) purchases ∧
    (process_result d randint (fun _ p => p) result purchases k).1.purchases =
      purchases := by
  obtain ⟨l, _, hu, hp, _⟩ := process_result_effect d randint sink result purchases k
  obtain ⟨l2, _, hu2, hp2, _⟩ := process_result_effect d randint (fun _ p => p) result purchases k
  constructor
  · rw [hu, hp]
  · rw [hp2]
    exact foldl_keep l2 purchases

/-- Witness instantiating C8 with the mutation-free sink on a concrete run. -/
theorem C8_seen_set_frame_witness :
    (process_result exDell exRandint exSink exResult [("k", "s", "e")] 0).1.purchases =
      [("k", "s", "e")] :=
  (C8_seen_set_frame exDell exRandint exSink exResult [("k", "s", "e")] 0).2

/-- C3: for a Warranty-classified line the composite key is the plain
concatenation serial + contract id + end date; when that key is already in
the seen-set no upload happens and the seen-set is untouched, the
duplicate diagnostic is emitted exactly when the stored date pair
string-equals the line's dates, and nothing at all happens when they
differ. -/
theorem C3_duplicate_suppression (sink : Sink) (o : Option String) (serial : String)
    (asset : AssetHeaderData) (product : ProductHeaderData) (st : RunState)
    (sub : EntitlementLine) (d_start d_end : String)
    (hw : contract_type sub.ServiceLevelGroup product.ProductId = "Warranty")
    (hk : st.purchases.lookup (serial ++ sub.ItemNumber ++ splitT0 sub.EndDate) =
      some (d_start, d_end)) :
    (process_line sink o serial asset product st sub).uploads = st.uploads ∧
    (process_line sink o serial asset product st sub).purchases = st.purchases ∧
    (d_start = splitT0 sub.StartDate ∧ d_end = splitT0 sub.EndDate →
      process_line sink o serial asset product st sub =
        { st with dup_logs :=
            st.dup_logs ++ [(serial, sub.ItemNumber, splitT0 sub.EndDate)] }) ∧
    (¬(d_start = splitT0 sub.StartDate ∧ d_end = splitT0 sub.EndDate) →
      process_line sink o serial asset product st sub = st) := by
  have hns : ¬contract_type sub.ServiceLevelGroup product.ProductId = "Service" := by
    rw [hw]; decide
  simp only [process_line, if_neg hns, hk]
  by_cases hd : d_start = splitT0 sub.StartDate ∧ d_end = splitT0 sub.EndDate
  · rw [if_pos hd]
    exact ⟨rfl, rfl, fun _ => rfl, fun hn => absurd hd hn⟩
  · rw [if_neg hd]
    exact ⟨rfl, rfl, fun h => absurd h hd, fun _ => rfl⟩

/-- Witness instantiating C3: the already-seen concrete line is suppressed
with the duplicate diagnostic. -/
theorem C3_duplicate_suppression_witness :
    (process_line exSink (some "701234567") "ABC123" exAsset exProduct exStDup
      exLineW).uploads = exStDup.uploads ∧
    process_line exSink (some "701234567") "ABC123" exAsset exProduct exStDup exLineW =
      { exStDup with dup_logs :=
          exStDup.dup_logs ++ [("ABC123", exLineW.ItemNumber, splitT0 exLineW.EndDate)] } :=
  ⟨(C3_duplicate_suppression exSink (some "701234567") "ABC123" exAsset exProduct exStDup
      exLineW "2020-01-02" "2023-01-02" (by decide) (by decide)).1,
   (C3_duplicate_suppression exSink (some "701234567") "ABC123" exAsset exProduct exStDup
      exLineW "2020-01-02" "2023-01-02" (by decide) (by decide)).2.2.1 (by decide)⟩

/-- C4: for a Warranty-classified line whose composite key is absent from
the seen-set, exactly one record is handed to the upload sink, carrying
the resolved order number, the ship date only when non-empty, the vendor
constant, the device serial, the contract id duplicated into the notes
field, the date-only start and end dates, and the completion flags
"yes". -/
theorem C4_upload_record_fields (sink : Sink) (o : Option String) (serial : String)
    (asset : AssetHeaderData) (product : ProductHeaderData) (st : RunState)
    (sub : EntitlementLine)
    (hw : contract_type sub.ServiceLevelGroup product.ProductId = "Warranty")
    (hk : st.purchases.lookup (serial ++ sub.ItemNumber ++ splitT0 sub.EndDate) = none) :
    ∃ data : UploadRecord,
      data = build_upload_record o (splitT0 asset.ShipDate) serial sub "Warranty"
        (splitT0 sub.StartDate) (splitT0 sub.EndDate) ∧
      process_line sink o serial asset product st sub =
        { st with uploads := st.uploads ++ [data],
                  purchases := sink data st.purchases } ∧
      data.order_no = o ∧
      data.po_date =
        (if splitT0 asset.ShipDate ≠ "" then some (splitT0 asset.ShipDate) else none) ∧
      data.vendor = "Dell Inc." ∧
      data.line_device_serial_nos = serial ∧
      data.line_contract_id = sub.ItemNumber ∧
      data.line_notes = sub.ItemNumber ∧
      data.line_contract_type = "Warranty" ∧
      data.line_start_date = splitT0 sub.StartDate ∧
      data.line_end_date = splitT0 sub.EndDate ∧
      data.completed = "yes" ∧
      data.line_completed = "yes" := by
  have hns : ¬contract_type sub.ServiceLevelGroup product.ProductId = "Service" := by
    rw [hw]; decide
  refine ⟨build_upload_record o (splitT0 asset.ShipDate) serial sub "Warranty"
    (splitT0 sub.StartDate) (splitT0 sub.EndDate), rfl, ?_, rfl, rfl, rfl, rfl, rfl, rfl,
    rfl, rfl, rfl, rfl, rfl⟩
  simp only [process_line, if_neg hns, hk]
  rw [hw]

/-- Witness instantiating C4 on the concrete Warranty line with an empty
seen-set. -/
theorem C4_upload_record_fields_witness :
    ∃ data : UploadRecord,
      data = build_upload_record (some "701234567") (splitT0 exAsset.ShipDate) "ABC123"
        exLineW "Warranty" (splitT0 exLineW.StartDate) (splitT0 exLineW.EndDate) ∧
      process_line exSink (some "701234567") "ABC123" exAsset exProduct (init_state [] 0)
          exLineW =
        { init_state [] 0 with
            uploads := (init_state [] 0).uploads ++ [data],
            purchases := exSink data (init_state [] 0).purchases } ∧
      data.order_no = some "701234567" := by
  obtain ⟨data, h1, h2, h3, _⟩ := C4_upload_record_fields exSink (some "701234567") "ABC123"
    exAsset exProduct (init_state [] 0) exLineW (by decide) (by decide)
  exact ⟨data, h1, h2, h3⟩

/-- C9: the uploaded record's service-type field holds the description
truncated to its first 32 characters when the description is present
(descriptions of at most 32 characters pass through unchanged) and is
omitted when the description is absent, the rest of the record being
unaffected by the description. -/
theorem C9_service_type_truncation (sink : Sink) (o : Option String) (serial : String)
    (asset : AssetHeaderData) (product : ProductHeaderData) (st : RunState)
    (sub : EntitlementLine)
    (hw : contract_type sub.ServiceLevelGroup product.ProductId = "Warranty")
    (hk : st.purchases.lookup (serial ++ sub.ItemNumber ++ splitT0 sub.EndDate) = none) :
    ∃ data : UploadRecord,
      (process_line sink o serial asset product st sub).uploads = st.uploads ++ [data] ∧
      data.line_service_type = sub.ServiceLevelDescription.map (fun s => left s 32) ∧
      (∀ s : String, (left s 32).data = s.data.take 32 ∧
        (left s 32).length = min 32 s.length ∧
        (s.length ≤ 32 → left s 32 = s)) ∧
      ∀ desc : Option String,
        build_upload_record o (splitT0 asset.ShipDate) serial
            { sub with ServiceLevelDescription := desc } "Warranty"
            (splitT0 sub.StartDate) (splitT0 sub.EndDate) =
          { data with line_service_type := desc.map (fun s => left s 32) } := by
  have hns : ¬contract_type sub.ServiceLevelGroup product.ProductId = "Service" := by
    rw [hw]; decide
  refine ⟨build_upload_record o (splitT0 asset.ShipDate) serial sub "Warranty"
    (splitT0 sub.StartDate) (splitT0 sub.EndDate), ?_, rfl, ?_, fun desc => rfl⟩
  · have hline : process_line sink o serial asset product st sub =
        { st with
            uploads := st.uploads ++ [build_upload_record o (splitT0 asset.ShipDate) serial
              sub "Warranty" (splitT0 sub.StartDate) (splitT0 sub.EndDate)],
            purchases := sink (build_upload_record o (splitT0 asset.ShipDate) serial sub
              "Warranty" (splitT0 sub.StartDate) (splitT0 sub.EndDate)) st.purchases } := by
      simp only [process_line, if_neg hns, hk]
      rw [hw]
    rw [hline]
  · intro s
    refine ⟨rfl, List.length_take 32 s.data, fun hle => ?_⟩
    show String.mk (s.data.take 32) = s
    rw [List.take_of_length_le hle]

/-- Witness instantiating C9: the 56-character concrete description is cut
to its first 32 characters. -/
theorem C9_service_type_truncation_witness :
    ∃ data : UploadRecord,
      (process_line exSink (some "701234567") "ABC123" exAsset exProduct (init_state [] 0)
        exLineW).uploads = (init_state [] 0).uploads ++ [data] ∧
      data.line_service_type = some "Next Business Day Onsite Service" := by
  obtain ⟨data, h1, h2, _, _⟩ := C9_service_type_truncation exSink (some "701234567")
    "ABC123" exAsset exProduct (init_state [] 0) exLineW (by decide) (by decide)
  refine ⟨data, h1, ?_⟩
  rw [h2]
  decide

/-- C10: a payload whose top-level object lacks the AssetWarrantyResponse
key yields no upload, leaves the seen-set untouched and returns normally
without raising. -/
theorem C10_missing_response_key (d : Dell) (randint : Nat → Fin 10) (sink : Sink)
    (result : WarrantyResponse) (purchases : SeenSet) (k : Nat)
    (h : result.AssetWarrantyResponse = none) :
    process_result d randint sink result purchases k = (init_state purchases k, none) ∧
    (process_result d randint sink result purchases k).1.uploads = [] ∧
    (process_result d randint sink result purchases k).1.purchases = purchases ∧
    (process_result d randint sink result purchases k).2 = none := by
  have h1 : process_result d randint sink result purchases k =
      (init_state purchases k, none) := by
    simp only [process_result, h]
  exact ⟨h1, by rw [h1]; rfl, by rw [h1]; rfl, by rw [h1]⟩

/-- Witness instantiating C10 on the concrete error payload. -/
theorem C10_missing_response_key_witness :
    process_result exDell exRandint exSink exErrResult [("k", "s", "e")] 0 =
      (init_state [("k", "s", "e")] 0, none) :=
  (C10_missing_response_key exDell exRandint exSink exErrResult [("k", "s", "e")] 0 rfl).1

/-- C5: evaluation of the fetcher on a trace whose first request is
rate-limited and whose retry succeeds.  The source recurses for the retry
(line 47) but never returns the recursive result, so the original call
yields none even though the retried request itself parses to a body; with
the retry already used, a 401 also yields none. -/
theorem C5_retry_result_discarded :
    run_warranty_check exNet 0 true = none ∧
    run_warranty_check exNet 1 false = some exResult ∧
    run_warranty_check exNet 0 false = none := by
  refine ⟨?_, ?_, ?_⟩ <;> simp [run_warranty_check, exNet]

/-- C6: a malformed asset entry is not skipped with a diagnostic: the dict
accesses raise KeyError, which the source's except IndexError cannot
catch, so process_result aborts with the exception and the well-formed
entry that follows is never processed; the same well-formed entry alone
produces one upload and a normal return. -/
theorem C6_malformed_entry_aborts :
    process_result exDell exRandint exSink exBadResult [] 0 =
      (init_state [] 0, some PyErr.keyError) ∧
    (process_result exDell exRandint exSink exResult [] 0).1.uploads = [exRecW] ∧
    (process_result exDell exRandint exSink exResult [] 0).2 = none := by
  refine ⟨?_, ?_, ?_⟩ <;> decide

/-- C7: order-number resolution: under the vendor strategy every record of
an asset carries the asset header's order number; under the common
strategy every record of a whole run carries the single value drawn at
construction; under any other strategy all records of one asset share one
fresh draw of exactly nine decimal digits made at the current stream
position. -/
theorem C7_order_no_strategies :
    (∀ (d : Dell) (randint : Nat → Fin 10) (sink : Sink) (st st1 : RunState)
        (item : AssetEntry) (asset : AssetHeaderData),
      item.AssetHeaderData = some asset →
      process_item d randint sink st item = Except.ok st1 →
      ∃ o : Option String,
        (∀ data ∈ st1.uploads.drop st.uploads.length, data.order_no = o) ∧
        (d.order_no = "vendor" → o = some asset.OrderNumber) ∧
        (d.order_no = "common" → o = d.common) ∧
        (d.order_no ≠ "vendor" → d.order_no ≠ "common" →
          o = some (generate_random_order_no randint st.rng) ∧
          (generate_random_order_no randint st.rng).length = 9 ∧
          (generate_random_order_no randint st.rng).data.all Char.isDigit = true)) ∧
    (∀ (debug : Bool) (randint : Nat → Fin 10) (sink : Sink) (result : WarrantyResponse)
        (purchases : SeenSet) (d : Dell) (k : Nat),
      Dell.init "common" debug randint = (d, k) →
      d.common = some (generate_random_order_no randint 0) ∧
      ∀ data ∈ (process_result d randint sink result purchases k).1.uploads,
        data.order_no = d.common) := by
  constructor
  · intro d randint sink st st1 item asset ha hok
    obtain ⟨warranties, asset2, product, hw2, ha2, hp2, l, hlen, hu, hpu, hrec⟩ :=
      process_item_effect d randint sink st item st1 hok
    have haa : asset2 = asset := by
      have hx := ha2.symm.trans ha
      injection hx
    subst haa
    refine ⟨(resolve_order_no d asset2 randint st.rng).1, ?_, ?_, ?_, ?_⟩
    · intro data hd
      rw [hu, List.drop_left] at hd
      exact (hrec data hd).1
    · intro hv
      rw [resolve_order_no_vendor d asset2 randint st.rng hv]
    · intro hc
      rw [resolve_order_no_common d asset2 randint st.rng hc]
    · intro hv hc
      rw [resolve_order_no_other d asset2 randint st.rng hv hc]
      exact ⟨rfl, (generate_random_order_no_spec randint st.rng).1,
        (generate_random_order_no_spec randint st.rng).2⟩
  · intro debug randint sink result purchases d k hinit
    have hunfold : Dell.init "common" debug randint =
        ({ order_no := "common", common := some (generate_random_order_no randint 0),
           debug := debug }, 9) := by
      simp [Dell.init]
    rw [hunfold] at hinit
    injection hinit with h1 h2
    subst h1
    subst h2
    refine ⟨rfl, ?_⟩
    intro data hd
    obtain ⟨l, _, hu, _, hrec⟩ := process_result_effect _ randint sink result purchases 9
    rw [hu] at hd
    exact (hrec data hd).2 rfl

/-- Witness instantiating C7's vendor case on the concrete asset. -/
theorem C7_order_no_strategies_witness :
    ∃ o : Option String,
      (∀ data ∈ exSt1.uploads.drop (init_state [] 0).uploads.length, data.order_no = o) ∧
      o = some exAsset.OrderNumber := by
  obtain ⟨o, h1, h2, _, _⟩ := C7_order_no_strategies.1 exDell exRandint exSink
    (init_state [] 0) exSt1 exItem exAsset rfl rfl
  exact ⟨o, h1, h2 rfl⟩
